import Mathlib

/-!
# Verification of the file-commander core (src/app.js)

A shallow embedding of the command-file interpreter: path validation
(`resolveSafePath`), the fallible file-system port, the eight command
functions, the command parser/dispatcher (`parseAndExecute`), and the
debounced change handler (`handleChange`).  Strings are modelled as lists
of characters, the disk as an association list from absolute path to file
content, and every underlying file-system primitive as a fallible action
on that disk so that arbitrary I/O failures can be injected.
-/

namespace FileCommander

/-- Strings are modelled as lists of characters. -/
abbrev Str := List Char

/-- View a Lean string literal in the character-list model. -/
def str (s : String) : Str := s.data

/-- Error values thrown by the file-system port or by path validation
(the `err.message` of the JavaScript exception). -/
abbrev Err := Str

/-- The log sink: the four severities of the `logger` object in app.js,
plus `plain` for bare `console.log` lines.  `error` carries the optional
underlying cause (`logger.error(msg, err)`). -/
inductive Log where
  | info    (msg : Str)
  | success (msg : Str)
  | warn    (msg : Str)
  | error   (msg : Str) (err : Option Err)
  | plain   (msg : Str)
  deriving DecidableEq, Repr

/-- The modelled disk: an association list from absolute path to file
content (directories are implicit; `mkdir` never changes this view). -/
abbrev FS := List (Str × Str)

/-- First-match lookup of a path on the disk. -/
def lookupF : FS → Str → Option Str
  | [], _ => none
  | (q, c) :: t, p => if q = p then some c else lookupF t p

/-- Remove every entry for a path. -/
def removeF (p : Str) : FS → FS
  | [] => []
  | (q, c) :: t => if q = p then removeF p t else (q, c) :: removeF p t

/-- Set the content of a path (create or overwrite). -/
def setF (p v : Str) (fs : FS) : FS := (p, v) :: removeF p fs

/-- Characters removed by JavaScript `String.prototype.trim`
(ECMAScript WhiteSpace and LineTerminator code points that occur in
practice; note U+FEFF is included). -/
def isJsWs (c : Char) : Bool :=
  c == ' ' || c == '\t' || c == '\n' || c == '\r' || c == '\u000B' ||
  c == '\u000C' || c == '\u00A0' || c == '\uFEFF' || c == '\u2028' || c == '\u2029'

/-- JavaScript `s.trim()`. -/
def jsTrim (l : Str) : Str := ((l.dropWhile isJsWs).reverse.dropWhile isJsWs).reverse

/-- JavaScript `s.startsWith(pat)`: `startsWithL pat s` is true when `pat`
is a prefix of `s`. -/
def startsWithL : Str → Str → Bool
  | [], _ => true
  | _ :: _, [] => false
  | a :: pa, b :: sb => a == b && startsWithL pa sb

/-- JavaScript `s.indexOf(pat)`: index of the first occurrence of `pat`
in `s`, if any. -/
def indexOfSub (pat : Str) : Str → Option Nat
  | [] => if startsWithL pat [] then some 0 else none
  | c :: t => if startsWithL pat (c :: t) then some 0 else (indexOfSub pat t).map (· + 1)

/-- Split a path on the slash character. -/
def splitSlashAux (cur : Str) : Str → List Str
  | [] => [cur.reverse]
  | c :: t => if c = '/' then cur.reverse :: splitSlashAux [] t else splitSlashAux (c :: cur) t

/-- All slash-separated segments of a path. -/
def splitSlash (p : Str) : List Str := splitSlashAux [] p

/-- Normalize the segments of an absolute path: drop empty and `.`
segments, and let `..` pop the previous segment (staying at the root when
there is none).  The accumulator holds the kept segments in reverse. -/
def normSegsAux : List Str → List Str → List Str
  | acc, [] => acc.reverse
  | acc, s :: rest =>
    if s = [] || s = ['.'] then normSegsAux acc rest
    else if s = ['.', '.'] then normSegsAux acc.tail rest
    else normSegsAux (s :: acc) rest

/-- Node `path.resolve(p)` against an absolute working directory `cwd`
(posix): an absolute `p` is normalized on its own, a relative `p` is
joined onto `cwd` first. -/
def pathResolve (cwd p : Str) : Str :=
  match p with
  | '/' :: _ => '/' :: List.intercalate ['/'] (normSegsAux [] (splitSlash p))
  | _ => '/' :: List.intercalate ['/'] (normSegsAux [] (splitSlash (cwd ++ '/' :: p)))

/-- app.js `resolveSafePath`: reject empty input, resolve against the
working directory, and reject the result unless the working directory is
a raw string prefix of it (`resolved.startsWith(cwd)`). -/
def resolveSafePath (cwd rawPath : Str) : Except Err Str :=
  if jsTrim rawPath = [] then .error (str "Empty path provided.")
  else
    let resolved := pathResolve cwd (jsTrim rawPath)
    if startsWithL cwd resolved then .ok resolved
    else .error (str "Path traversal detected: \"" ++ rawPath ++ str "\" escapes working directory.")

/-- Modelled from the spec (§4.1): the corrected segment-boundary
containment test — `p` equals the root or extends it at a `/` boundary.
Stated for a non-root absolute `root`; used only to compare against the
source's raw string-prefix test. -/
def specSegmentDescendant (root p : Str) : Bool :=
  p = root || startsWithL (root ++ ['/']) p

/-- Index of the last slash in a path, if any. -/
def lastSlashIdx : Str → Option Nat
  | [] => none
  | c :: t =>
    match lastSlashIdx t with
    | some i => some (i + 1)
    | none => if c = '/' then some 0 else none

/-- Posix `path.dirname`. -/
def dirname (p : Str) : Str :=
  match lastSlashIdx p with
  | none => str "."
  | some 0 => str "/"
  | some i => p.take i

/-- `fs.stat` result (timestamps abstracted to naturals). -/
structure StatInfo where
  isDirectory : Bool
  size : Nat
  birthtime : Nat
  mtime : Nat
  atime : Nat
  deriving DecidableEq, Repr

/-- The file-system port consumed by the commands.  Every primitive may
fail (`Except`) and may change the disk; quantifying over ports injects
arbitrary underlying I/O failures (permission denied, disk full, ...).
`append` folds the source's open("a")/write/close sequence into one
action; `openWrite` is open with the truncating "w" flag plus close. -/
structure FsPort where
  access    : Str → FS → Except Err Unit
  mkdir     : Str → FS → Except Err FS
  openWrite : Str → FS → Except Err FS
  unlink    : Str → FS → Except Err FS
  rename    : Str → Str → FS → Except Err FS
  append    : Str → Str → FS → Except Err FS
  readAll   : Str → FS → Except Err Str
  copy      : Str → Str → FS → Except Err FS
  readdir   : Str → FS → Except Err (List (Str × Bool))
  stat      : Str → FS → Except Err StatInfo

/-- The reference port: the association-list semantics of a healthy local
file system (directory listing abstracted to the empty listing, file
timestamps to zero). -/
def ioPort : FsPort where
  access := fun p fs => if (lookupF fs p).isSome then .ok () else .error (str "ENOENT")
  mkdir := fun _ fs => .ok fs
  openWrite := fun p fs => .ok (setF p [] fs)
  unlink := fun p fs =>
    match lookupF fs p with
    | some _ => .ok (removeF p fs)
    | none => .error (str "ENOENT")
  rename := fun o n fs =>
    match lookupF fs o with
    | some c => .ok (setF n c (removeF o fs))
    | none => .error (str "ENOENT")
  append := fun p v fs => .ok (setF p ((lookupF fs p).getD [] ++ v) fs)
  readAll := fun p fs =>
    match lookupF fs p with
    | some c => .ok c
    | none => .error (str "ENOENT")
  copy := fun s d fs =>
    match lookupF fs s with
    | some c => .ok (setF d c fs)
    | none => .error (str "ENOENT")
  readdir := fun _ _ => .ok []
  stat := fun p fs =>
    match lookupF fs p with
    | some c => .ok ⟨false, c.length, 0, 0, 0⟩
    | none => .error (str "ENOENT")

/-- app.js `pathExists`: `fs.access` wrapped in try/catch, any failure
giving `false`. -/
def pathExists (port : FsPort) (p : Str) (fs : FS) : Bool :=
  match port.access p fs with
  | .ok _ => true
  | .error _ => false

/-- A port on which every access check is denied (EACCES) and every other
primitive fails with EIO: a disk whose files exist but are inaccessible
to the process. -/
def deniedPort : FsPort where
  access := fun _ _ => .error (str "EACCES")
  mkdir := fun _ _ => .error (str "EIO")
  openWrite := fun _ _ => .error (str "EIO")
  unlink := fun _ _ => .error (str "EIO")
  rename := fun _ _ _ => .error (str "EIO")
  append := fun _ _ _ => .error (str "EIO")
  readAll := fun _ _ => .error (str "EIO")
  copy := fun _ _ _ => .error (str "EIO")
  readdir := fun _ _ => .error (str "EIO")
  stat := fun _ _ => .error (str "EIO")

/-- The horizontal rule `"─".repeat(60)` printed around file/dir listings. -/
def sepLine : Str := List.replicate 60 '─'

/-- The try/catch wrapper shared by every command function: a body result
that escaped as an error becomes exactly one error log (with the body's
disk state kept, as JavaScript keeps mutations made before the throw). -/
def catchCmd (ctx : Str) (r : Except Err (List Log) × FS) : FS × List Log :=
  match r with
  | (.ok logs, fs) => (fs, logs)
  | (.error e, fs) => (fs, [Log.error ctx (some e)])

/-- Body of app.js `createFile` (inside its try): resolve, skip with a
warn when the target exists, else mkdir -p the parent and create empty. -/
def createFileBody (port : FsPort) (cwd rawPath : Str) (fs : FS) :
    Except Err (List Log) × FS :=
  match resolveSafePath cwd rawPath with
  | .error e => (.error e, fs)
  | .ok filePath =>
    if pathExists port filePath fs then
      (.ok [Log.warn (str "File already exists: \"" ++ filePath ++ str "\"")], fs)
    else
      match port.mkdir (dirname filePath) fs with
      | .error e => (.error e, fs)
      | .ok fs1 =>
        match port.openWrite filePath fs1 with
        | .error e => (.error e, fs1)
        | .ok fs2 => (.ok [Log.success (str "File created: \"" ++ filePath ++ str "\"")], fs2)

/-- app.js `createFile`. -/
def createFile (port : FsPort) (cwd rawPath : Str) (fs : FS) : FS × List Log :=
  catchCmd (str "createFile failed for \"" ++ rawPath ++ str "\"")
    (createFileBody port cwd rawPath fs)

/-- Body of app.js `deleteFile`. -/
def deleteFileBody (port : FsPort) (cwd rawPath : Str) (fs : FS) :
    Except Err (List Log) × FS :=
  match resolveSafePath cwd rawPath with
  | .error e => (.error e, fs)
  | .ok filePath =>
    if !(pathExists port filePath fs) then
      (.ok [Log.warn (str "File not found, cannot delete: \"" ++ filePath ++ str "\"")], fs)
    else
      match port.unlink filePath fs with
      | .error e => (.error e, fs)
      | .ok fs1 => (.ok [Log.success (str "File deleted: \"" ++ filePath ++ str "\"")], fs1)

/-- app.js `deleteFile`. -/
def deleteFile (port : FsPort) (cwd rawPath : Str) (fs : FS) : FS × List Log :=
  catchCmd (str "deleteFile failed for \"" ++ rawPath ++ str "\"")
    (deleteFileBody port cwd rawPath fs)

/-- Body of app.js `renameFile`: resolve both paths, warn + no-op when
the source is missing or the destination already exists, else mkdir -p
the destination's parent and rename. -/
def renameFileBody (port : FsPort) (cwd rawOldPath rawNewPath : Str) (fs : FS) :
    Except Err (List Log) × FS :=
  match resolveSafePath cwd rawOldPath with
  | .error e => (.error e, fs)
  | .ok oldPath =>
    match resolveSafePath cwd rawNewPath with
    | .error e => (.error e, fs)
    | .ok newPath =>
      if !(pathExists port oldPath fs) then
        (.ok [Log.warn (str "Source file not found: \"" ++ oldPath ++ str "\"")], fs)
      else if pathExists port newPath fs then
        (.ok [Log.warn (str "Destination already exists: \"" ++ newPath ++
          str "\". Rename aborted.")], fs)
      else
        match port.mkdir (dirname newPath) fs with
        | .error e => (.error e, fs)
        | .ok fs1 =>
          match port.rename oldPath newPath fs1 with
          | .error e => (.error e, fs1)
          | .ok fs2 =>
            (.ok [Log.success (str "File renamed: \"" ++ oldPath ++ str "\" → \"" ++
              newPath ++ str "\"")], fs2)

/-- app.js `renameFile`. -/
def renameFile (port : FsPort) (cwd rawOldPath rawNewPath : Str) (fs : FS) : FS × List Log :=
  catchCmd (str "renameFile failed (\"" ++ rawOldPath ++ str "\" → \"" ++ rawNewPath ++ str "\")")
    (renameFileBody port cwd rawOldPath rawNewPath fs)

/-- Body of app.js `addToFile`: resolve, mkdir -p the parent, then append
`content` verbatim (open with the "a" flag auto-creates the file). -/
def addToFileBody (port : FsPort) (cwd rawPath content : Str) (fs : FS) :
    Except Err (List Log) × FS :=
  match resolveSafePath cwd rawPath with
  | .error e => (.error e, fs)
  | .ok filePath =>
    match port.mkdir (dirname filePath) fs with
    | .error e => (.error e, fs)
    | .ok fs1 =>
      match port.append filePath content fs1 with
      | .error e => (.error e, fs1)
      | .ok fs2 => (.ok [Log.success (str "Content appended to: \"" ++ filePath ++ str "\"")], fs2)

/-- app.js `addToFile`. -/
def addToFile (port : FsPort) (cwd rawPath content : Str) (fs : FS) : FS × List Log :=
  catchCmd (str "addToFile failed for \"" ++ rawPath ++ str "\"")
    (addToFileBody port cwd rawPath content fs)

/-- Body of app.js `readFile`. -/
def readFileBody (port : FsPort) (cwd rawPath : Str) (fs : FS) :
    Except Err (List Log) × FS :=
  match resolveSafePath cwd rawPath with
  | .error e => (.error e, fs)
  | .ok filePath =>
    if !(pathExists port filePath fs) then
      (.ok [Log.warn (str "File not found: \"" ++ filePath ++ str "\"")], fs)
    else
      match port.readAll filePath fs with
      | .error e => (.error e, fs)
      | .ok content =>
        (.ok [Log.success (str "Contents of \"" ++ filePath ++ str "\":"),
              Log.plain sepLine,
              Log.plain (if content = [] then str "(empty file)" else content),
              Log.plain sepLine], fs)

/-- app.js `readFile`. -/
def readFile (port : FsPort) (cwd rawPath : Str) (fs : FS) : FS × List Log :=
  catchCmd (str "readFile failed for \"" ++ rawPath ++ str "\"")
    (readFileBody port cwd rawPath fs)

/-- Body of app.js `copyFile`. -/
def copyFileBody (port : FsPort) (cwd rawSrc rawDest : Str) (fs : FS) :
    Except Err (List Log) × FS :=
  match resolveSafePath cwd rawSrc with
  | .error e => (.error e, fs)
  | .ok src =>
    match resolveSafePath cwd rawDest with
    | .error e => (.error e, fs)
    | .ok dest =>
      if !(pathExists port src fs) then
        (.ok [Log.warn (str "Source file not found: \"" ++ src ++ str "\"")], fs)
      else
        match port.mkdir (dirname dest) fs with
        | .error e => (.error e, fs)
        | .ok fs1 =>
          match port.copy src dest fs1 with
          | .error e => (.error e, fs1)
          | .ok fs2 =>
            (.ok [Log.success (str "File copied: \"" ++ src ++ str "\" → \"" ++
              dest ++ str "\"")], fs2)

/-- app.js `copyFile`. -/
def copyFile (port : FsPort) (cwd rawSrc rawDest : Str) (fs : FS) : FS × List Log :=
  catchCmd (str "copyFile failed (\"" ++ rawSrc ++ str "\" → \"" ++ rawDest ++ str "\")")
    (copyFileBody port cwd rawSrc rawDest fs)

/-- One listing line per directory entry (`[DIR ]` or `[FILE]`). -/
def entryLine (e : Str × Bool) : Log :=
  Log.plain (str "  [" ++ (if e.2 then str "DIR " else str "FILE") ++ str "] " ++ e.1)

/-- Body of app.js `listDirectory` (the function itself defaults an empty
path to ".", as does its call site). -/
def listDirectoryBody (port : FsPort) (cwd rawPath : Str) (fs : FS) :
    Except Err (List Log) × FS :=
  match resolveSafePath cwd (if rawPath = [] then str "." else rawPath) with
  | .error e => (.error e, fs)
  | .ok dirPath =>
    match port.readdir dirPath fs with
    | .error e => (.error e, fs)
    | .ok entries =>
      (.ok ([Log.success (str "Contents of \"" ++ dirPath ++ str "\":"), Log.plain sepLine] ++
            (if entries.length = 0 then [Log.plain (str "  (empty directory)")]
             else entries.map entryLine) ++
            [Log.plain sepLine]), fs)

/-- app.js `listDirectory`. -/
def listDirectory (port : FsPort) (cwd rawPath : Str) (fs : FS) : FS × List Log :=
  catchCmd (str "listDirectory failed for \"" ++ rawPath ++ str "\"")
    (listDirectoryBody port cwd rawPath fs)

/-- Body of app.js `fileInfo` (timestamps shown as decimal naturals). -/
def fileInfoBody (port : FsPort) (cwd rawPath : Str) (fs : FS) :
    Except Err (List Log) × FS :=
  match resolveSafePath cwd rawPath with
  | .error e => (.error e, fs)
  | .ok filePath =>
    if !(pathExists port filePath fs) then
      (.ok [Log.warn (str "Path not found: \"" ++ filePath ++ str "\"")], fs)
    else
      match port.stat filePath fs with
      | .error e => (.error e, fs)
      | .ok stats =>
        (.ok [Log.success (str "Info for \"" ++ filePath ++ str "\":"),
              Log.plain sepLine,
              Log.plain (str "  Type     : " ++
                (if stats.isDirectory then str "Directory" else str "File")),
              Log.plain (str "  Size     : " ++ (Nat.repr stats.size).data ++ str " bytes"),
              Log.plain (str "  Created  : " ++ (Nat.repr stats.birthtime).data),
              Log.plain (str "  Modified : " ++ (Nat.repr stats.mtime).data),
              Log.plain (str "  Accessed : " ++ (Nat.repr stats.atime).data),
              Log.plain sepLine], fs)

/-- app.js `fileInfo`. -/
def fileInfo (port : FsPort) (cwd rawPath : Str) (fs : FS) : FS × List Log :=
  catchCmd (str "fileInfo failed for \"" ++ rawPath ++ str "\"")
    (fileInfoBody port cwd rawPath fs)

/-- COMMANDS.CREATE_FILE. -/
def CREATE_FILE : Str := str "create a file"

/-- COMMANDS.DELETE_FILE. -/
def DELETE_FILE : Str := str "delete the file"

/-- COMMANDS.RENAME_FILE. -/
def RENAME_FILE : Str := str "rename the file"

/-- COMMANDS.ADD_TO_FILE. -/
def ADD_TO_FILE : Str := str "add to the file"

/-- COMMANDS.READ_FILE. -/
def READ_FILE : Str := str "read the file"

/-- COMMANDS.COPY_FILE. -/
def COPY_FILE : Str := str "copy the file"

/-- COMMANDS.LIST_DIR. -/
def LIST_DIR : Str := str "list the directory"

/-- COMMANDS.FILE_INFO. -/
def FILE_INFO : Str := str "file info"

/-- The path/payload separator of the add-to-file command. -/
def MARKER : Str := str " this content: "

/-- The path-pair separator of the rename and copy commands. -/
def SEP_TO : Str := str " to "

/-- All verb phrases in Object.values(COMMANDS) order. -/
def commandsList : List Str :=
  [CREATE_FILE, DELETE_FILE, RENAME_FILE, ADD_TO_FILE, READ_FILE, COPY_FILE,
   LIST_DIR, FILE_INFO]

/-- `raw.replace of a leading U+FEFF with the empty string`: strip one leading byte-order mark. -/
def stripBOM : Str → Str
  | '\uFEFF' :: t => t
  | l => l

/-- `.replace(/\r\n/g, "\n")`: left-to-right replacement of CRLF pairs. -/
def normalizeCRLF : Str → Str
  | '\r' :: '\n' :: t => '\n' :: normalizeCRLF t
  | c :: t => c :: normalizeCRLF t
  | [] => []

/-- The normalization line of `parseAndExecute`:
`raw.replace of a leading U+FEFF with the empty string.trim().replace(/\r\n/g, "\n")`. -/
def normalizeCmd (raw : Str) : Str := normalizeCRLF (jsTrim (stripBOM raw))

/-- app.js `parseAndExecute`: normalize, ignore an empty command, log the
received command, then dispatch on the first matching verb-phrase prefix
in source order; returns the disk after the command and the emitted log
lines in order. -/
def parseAndExecute (port : FsPort) (cwd : Str) (fs : FS) (raw : Str) : FS × List Log :=
  let command := normalizeCmd raw
  if command = [] then
    (fs, [Log.warn (str "Received empty command — ignoring.")])
  else
    let received := Log.info (str "Command received: \"" ++ command ++ str "\"")
    if startsWithL CREATE_FILE command then
      let r := createFile port cwd (jsTrim (command.drop CREATE_FILE.length)) fs
      (r.1, received :: r.2)
    else if startsWithL DELETE_FILE command then
      let r := deleteFile port cwd (jsTrim (command.drop DELETE_FILE.length)) fs
      (r.1, received :: r.2)
    else if startsWithL RENAME_FILE command then
      let rest := jsTrim (command.drop RENAME_FILE.length)
      match indexOfSub SEP_TO rest with
      | none =>
        (fs, [received, Log.error (str "rename syntax: rename the file <old> to <new>") none])
      | some toIdx =>
        let r := renameFile port cwd (jsTrim (rest.take toIdx))
          (jsTrim (rest.drop (toIdx + 4))) fs
        (r.1, received :: r.2)
    else if startsWithL ADD_TO_FILE command then
      let rest := jsTrim (command.drop ADD_TO_FILE.length)
      match indexOfSub MARKER rest with
      | none =>
        (fs, [received,
          Log.error (str "addToFile syntax: add to the file <path> this content: <text>") none])
      | some markerIdx =>
        let r := addToFile port cwd (jsTrim (rest.take markerIdx))
          (rest.drop (markerIdx + MARKER.length)) fs
        (r.1, received :: r.2)
    else if startsWithL READ_FILE command then
      let r := readFile port cwd (jsTrim (command.drop READ_FILE.length)) fs
      (r.1, received :: r.2)
    else if startsWithL COPY_FILE command then
      let rest := jsTrim (command.drop COPY_FILE.length)
      match indexOfSub SEP_TO rest with
      | none =>
        (fs, [received, Log.error (str "copyFile syntax: copy the file <src> to <dest>") none])
      | some toIdx =>
        let r := copyFile port cwd (jsTrim (rest.take toIdx))
          (jsTrim (rest.drop (toIdx + 4))) fs
        (r.1, received :: r.2)
    else if startsWithL LIST_DIR command then
      let d := jsTrim (command.drop LIST_DIR.length)
      let r := listDirectory port cwd (if d = [] then str "." else d) fs
      (r.1, received :: r.2)
    else if startsWithL FILE_INFO command then
      let r := fileInfo port cwd (jsTrim (command.drop FILE_INFO.length)) fs
      (r.1, received :: r.2)
    else
      (fs, received :: Log.warn (str "Unknown command: \"" ++ command ++ str "\"") ::
        Log.info (str "Available commands:") ::
        commandsList.map (fun c => Log.plain (str "  • " ++ c ++ str " ...")))

/-- The watcher's process-scoped state: the `processing` in-flight flag
and `lastContent`, the most recently executed snapshot. -/
structure WatchState where
  processing : Bool
  lastContent : Str
  deriving DecidableEq, Repr

/-- Everything one run of the change handler produces: the final watch
state and disk, the log lines, the content passed to `parseAndExecute`
(when it was invoked at all), and the value of the `processing` flag at
each suspension point (`await file.stat()`, `await file.read(...)`,
`await parseAndExecute(...)`) reached during the run. -/
structure HandleResult where
  state : WatchState
  fs : FS
  logs : List Log
  executed : Option Str
  suspended : List Bool
  deriving DecidableEq, Repr

/-- The `file.on("change")` handler of app.js.  `statE` is the outcome of
`await file.stat()` (the file size) and `readE` the outcome of
`await file.read(...)` (the content), both injectable failures; the
try/catch logs any escaped error and the finally clears `processing` on
every path. -/
def handleChange (port : FsPort) (cwd : Str) (statE : Except Err Nat)
    (readE : Except Err Str) (s : WatchState) (fs : FS) : HandleResult :=
  if s.processing then ⟨s, fs, [], none, []⟩
  else
    match statE with
    | .error e =>
      ⟨⟨false, s.lastContent⟩, fs,
        [Log.error (str "Unexpected error while processing command") (some e)], none, [true]⟩
    | .ok size =>
      if size = 0 then ⟨⟨false, s.lastContent⟩, fs, [], none, [true]⟩
      else
        match readE with
        | .error e =>
          ⟨⟨false, s.lastContent⟩, fs,
            [Log.error (str "Unexpected error while processing command") (some e)], none,
            [true, true]⟩
        | .ok content =>
          if content = s.lastContent then
            ⟨⟨false, s.lastContent⟩, fs, [], none, [true, true]⟩
          else
            let r := parseAndExecute port cwd fs content
            ⟨⟨false, content⟩, r.1, r.2, some content, [true, true, true]⟩

/-! ## General lemmas about the string primitives -/

theorem startsWithL_append_self (p r : Str) : startsWithL p (p ++ r) = true := by
  induction p with
  | nil => rfl
  | cons a t ih => simp [startsWithL, ih]

theorem startsWithL_eq_append (pat l : Str) (h : startsWithL pat l = true) :
    l = pat ++ l.drop pat.length := by
  induction pat generalizing l with
  | nil => simp
  | cons a t ih =>
    cases l with
    | nil => simp [startsWithL] at h
    | cons b u =>
      simp only [startsWithL, Bool.and_eq_true, beq_iff_eq] at h
      obtain ⟨rfl, h2⟩ := h
      simpa using ih u h2

/-- `indexOfSub` finds the FIRST occurrence: the pattern starts at the
returned index and at no earlier index. -/
theorem indexOfSub_first (pat l : Str) (i : Nat) (h : indexOfSub pat l = some i) :
    startsWithL pat (l.drop i) = true ∧ ∀ j, j < i → startsWithL pat (l.drop j) = false := by
  induction l generalizing i with
  | nil =>
    unfold indexOfSub at h
    by_cases hp : startsWithL pat [] = true
    · rw [if_pos hp] at h
      obtain rfl : i = 0 := by simpa using h.symm
      exact ⟨hp, fun j hj => absurd hj (Nat.not_lt_zero j)⟩
    · rw [if_neg hp] at h
      cases h
  | cons c t ih =>
    unfold indexOfSub at h
    by_cases hp : startsWithL pat (c :: t) = true
    · rw [if_pos hp] at h
      obtain rfl : i = 0 := by simpa using h.symm
      exact ⟨hp, fun j hj => absurd hj (Nat.not_lt_zero j)⟩
    · rw [if_neg hp] at h
      match hm : indexOfSub pat t with
      | none => rw [hm] at h; cases h
      | some i0 =>
        rw [hm] at h
        obtain rfl : i = i0 + 1 := by
          cases h
          rfl
        obtain ⟨h1, h2⟩ := ih i0 hm
        refine ⟨h1, fun j hj => ?_⟩
        match j with
        | 0 => simpa using Bool.eq_false_iff.mpr hp
        | j0 + 1 => exact h2 j0 (Nat.lt_of_succ_lt_succ hj)

/-- A pattern found at index `i` splits the string as
`take i ++ pat ++ drop (i + pat.length)`. -/
theorem indexOfSub_split (pat l : Str) (i : Nat) (h : indexOfSub pat l = some i) :
    l = l.take i ++ pat ++ l.drop (i + pat.length) := by
  obtain ⟨h1, _⟩ := indexOfSub_first pat l i h
  have h2 : l.drop i = pat ++ (l.drop i).drop pat.length := startsWithL_eq_append _ _ h1
  have h3 : (l.drop i).drop pat.length = l.drop (i + pat.length) := by
    rw [List.drop_drop, Nat.add_comm]
  calc l = l.take i ++ l.drop i := (List.take_append_drop i l).symm
    _ = l.take i ++ (pat ++ l.drop (i + pat.length)) := by rw [h2, h3]
    _ = l.take i ++ pat ++ l.drop (i + pat.length) := by rw [List.append_assoc]

theorem lookupF_setF_self (p v : Str) (fs : FS) : lookupF (setF p v fs) p = some v := by
  simp [setF, lookupF]

/-! ## Dispatch lemmas: how `parseAndExecute` reaches each command -/

theorem parse_rename_eq (port : FsPort) (cwd : Str) (fs : FS) (raw r0 : Str) (i : Nat)
    (h : normalizeCmd raw = RENAME_FILE ++ r0)
    (hi : indexOfSub SEP_TO (jsTrim r0) = some i) :
    parseAndExecute port cwd fs raw =
      ((renameFile port cwd (jsTrim ((jsTrim r0).take i)) (jsTrim ((jsTrim r0).drop (i + 4))) fs).1,
       Log.info (str "Command received: \"" ++ (RENAME_FILE ++ r0) ++ str "\"") ::
         (renameFile port cwd (jsTrim ((jsTrim r0).take i))
           (jsTrim ((jsTrim r0).drop (i + 4))) fs).2) := by
  simp only [parseAndExecute]
  rw [h]
  rw [List.drop_left RENAME_FILE r0]
  rw [hi]
  rfl

theorem parse_copy_eq (port : FsPort) (cwd : Str) (fs : FS) (raw r0 : Str) (i : Nat)
    (h : normalizeCmd raw = COPY_FILE ++ r0)
    (hi : indexOfSub SEP_TO (jsTrim r0) = some i) :
    parseAndExecute port cwd fs raw =
      ((copyFile port cwd (jsTrim ((jsTrim r0).take i)) (jsTrim ((jsTrim r0).drop (i + 4))) fs).1,
       Log.info (str "Command received: \"" ++ (COPY_FILE ++ r0) ++ str "\"") ::
         (copyFile port cwd (jsTrim ((jsTrim r0).take i))
           (jsTrim ((jsTrim r0).drop (i + 4))) fs).2) := by
  simp only [parseAndExecute]
  rw [h]
  rw [List.drop_left COPY_FILE r0]
  rw [hi]
  rfl

theorem parse_add_eq (port : FsPort) (cwd : Str) (fs : FS) (raw r0 : Str) (i : Nat)
    (h : normalizeCmd raw = ADD_TO_FILE ++ r0)
    (hi : indexOfSub MARKER (jsTrim r0) = some i) :
    parseAndExecute port cwd fs raw =
      ((addToFile port cwd (jsTrim ((jsTrim r0).take i))
          ((jsTrim r0).drop (i + MARKER.length)) fs).1,
       Log.info (str "Command received: \"" ++ (ADD_TO_FILE ++ r0) ++ str "\"") ::
         (addToFile port cwd (jsTrim ((jsTrim r0).take i))
           ((jsTrim r0).drop (i + MARKER.length)) fs).2) := by
  simp only [parseAndExecute]
  rw [h]
  rw [List.drop_left ADD_TO_FILE r0]
  rw [hi]
  rfl

/-! ## Claim theorems -/

/-- C1: the claim requires that every raw path whose absolute form is
neither the sandbox root nor a segment-wise descendant of it is rejected
with PathTraversal, and in particular that with root `/work` the input
`/work-other/x` fails.  The source's `resolveSafePath` instead uses a raw
string-prefix test (`resolved.startsWith(cwd)`), so `/work-other/x` —
which resolves to itself, is not a segment-wise descendant of `/work`,
and escapes the working directory — is ACCEPTED: the code contradicts
the claim (and its own doc comment, which promises to prevent escapes of
the working directory). -/
theorem traversal_prefix_bug :
    resolveSafePath (str "/work") (str "/work-other/x") = .ok (str "/work-other/x") ∧
    specSegmentDescendant (str "/work") (str "/work-other/x") = false ∧
    pathResolve (str "/work") (str "/work-other/x") = str "/work-other/x" := by
  refine ⟨rfl, rfl, rfl⟩

/-- C8: every raw input that normalizes to the empty string (strip BOM,
trim, normalize CRLF) yields the empty-command warn and no file-system
action, for every port and disk. -/
theorem empty_command_noop (port : FsPort) (cwd : Str) (fs : FS) (raw : Str)
    (h : normalizeCmd raw = []) :
    parseAndExecute port cwd fs raw =
      (fs, [Log.warn (str "Received empty command — ignoring.")]) := by
  simp only [parseAndExecute]
  rw [h]
  rfl

/-- Witness for C8 at a concrete input: a BOM plus whitespace and a CRLF
normalizes to empty and is ignored without touching the disk. -/
theorem empty_command_noop_witness :
    normalizeCmd (str "\uFEFF \r\n") = [] ∧
    parseAndExecute ioPort (str "/w") [(str "/w/a", str "x")] (str "\uFEFF \r\n") =
      ([(str "/w/a", str "x")], [Log.warn (str "Received empty command — ignoring.")]) :=
  ⟨rfl, empty_command_noop ioPort (str "/w") [(str "/w/a", str "x")] (str "\uFEFF \r\n") rfl⟩

/-- C5: starting Idle (`processing = false`), the change handler holds
`processing = true` at every suspension point it reaches (the list is
nonempty: the flag is raised before the first await) and ends every path
— empty file, duplicate content, successful execution, failure — with
`processing = false`; starting Processing (`processing = true`), the
handler is an immediate no-op, so at most one cycle is ever in flight. -/
theorem inflight_flag_discipline (port : FsPort) (cwd : Str) (statE : Except Err Nat)
    (readE : Except Err Str) (last : Str) (fs : FS) :
    (let r := handleChange port cwd statE readE ⟨false, last⟩ fs
     r.state.processing = false ∧ r.suspended.all (fun b => b) = true ∧ r.suspended ≠ []) ∧
    handleChange port cwd statE readE ⟨true, last⟩ fs = ⟨⟨true, last⟩, fs, [], none, []⟩ := by
  constructor
  · cases statE with
    | error e => simp [handleChange]
    | ok size =>
      by_cases h0 : size = 0
      · simp [handleChange, h0]
      · cases readE with
        | error e => simp [handleChange, h0]
        | ok content =>
          by_cases hd : content = last
          · simp [handleChange, h0, hd]
          · simp [handleChange, h0, hd]
  · simp [handleChange]

/-- First handler computation: a fresh nonempty content executes. -/
theorem handleChange_exec (port : FsPort) (cwd c last : Str) (fs : FS)
    (hc : c.length ≠ 0) (hd : c ≠ last) :
    handleChange port cwd (.ok c.length) (.ok c) ⟨false, last⟩ fs =
      ⟨⟨false, c⟩, (parseAndExecute port cwd fs c).1, (parseAndExecute port cwd fs c).2,
        some c, [true, true, true]⟩ := by
  simp [handleChange, hc, hd]

/-- Second handler computation: content equal to `lastContent` is dropped
before parsing. -/
theorem handleChange_dup (port : FsPort) (cwd c : Str) (fs : FS) (hc : c.length ≠ 0) :
    handleChange port cwd (.ok c.length) (.ok c) ⟨false, c⟩ fs =
      ⟨⟨false, c⟩, fs, [], none, [true, true]⟩ := by
  simp [handleChange, hc]

/-- C4: content byte-identical to `lastSeenContent` sends the loop back
to Idle without parsing or executing — so two notifications with the same
nonempty content, the second arriving after the first cycle completed,
produce exactly one execution: the first invokes `parseAndExecute`, the
second emits no log, performs no disk action and executes nothing. -/
theorem duplicate_event_suppression (port : FsPort) (cwd c last : Str) (fs : FS)
    (hne : c ≠ []) (hdiff : c ≠ last) :
    let r1 := handleChange port cwd (.ok c.length) (.ok c) ⟨false, last⟩ fs
    let r2 := handleChange port cwd (.ok c.length) (.ok c) r1.state r1.fs
    r1.executed = some c ∧ r1.state = ⟨false, c⟩ ∧
    r2.executed = none ∧ r2.logs = [] ∧ r2.fs = r1.fs ∧ r2.state = ⟨false, c⟩ := by
  have hc : c.length ≠ 0 := fun h0 => hne (List.length_eq_zero.mp h0)
  intro r1 r2
  have e1 : r1 = ⟨⟨false, c⟩, (parseAndExecute port cwd fs c).1,
      (parseAndExecute port cwd fs c).2, some c, [true, true, true]⟩ :=
    handleChange_exec port cwd c last fs hc hdiff
  have e2 : r2 = ⟨⟨false, c⟩, r1.fs, [], none, [true, true]⟩ := by
    show handleChange port cwd (.ok c.length) (.ok c) r1.state r1.fs =
      ⟨⟨false, c⟩, r1.fs, [], none, [true, true]⟩
    rw [e1]
    exact handleChange_dup port cwd c _ hc
  simp [e2, e1]

/-- Every command is its body wrapped in the same catch: the body either
returns its logs, or its escaped error becomes exactly one error log. -/
theorem catchCmd_cases (ctx : Str) (r : Except Err (List Log) × FS) :
    (∃ logs fs2, r = (.ok logs, fs2) ∧ catchCmd ctx r = (fs2, logs)) ∨
    (∃ e fs2, r = (.error e, fs2) ∧ catchCmd ctx r = (fs2, [Log.error ctx (some e)])) := by
  obtain ⟨res, fs2⟩ := r
  cases res with
  | ok logs => exact Or.inl ⟨logs, fs2, rfl, rfl⟩
  | error e => exact Or.inr ⟨e, fs2, rfl, rfl⟩

/-- A change cycle started from Idle always ends with the in-flight flag
cleared, whatever the port, stat and read outcomes. -/
theorem handleChange_processing_false (port : FsPort) (cwd : Str) (statE : Except Err Nat)
    (readE : Except Err Str) (last : Str) (fs : FS) :
    (handleChange port cwd statE readE ⟨false, last⟩ fs).state.processing = false := by
  cases statE with
  | error e => simp [handleChange]
  | ok size =>
    by_cases h0 : size = 0
    · simp [handleChange, h0]
    · cases readE with
      | error e => simp [handleChange, h0]
      | ok content =>
        by_cases hd : content = last
        · simp [handleChange, h0, hd]
        · simp [handleChange, h0, hd]

/-- C3: no underlying file-system failure escapes as an uncaught fault.
For every port behavior (any primitive may fail arbitrarily) each of the
eight command functions either returns its body's logs or catches the
body's escaped error and reports it as a single error log with the cause
attached; and the change handler always returns to Idle (`processing =
false`) — in particular a failing `stat` is caught, logged once, and the
watch keeps running. -/
theorem no_uncaught_faults :
    (∀ (port : FsPort) (cwd rawPath : Str) (fs : FS),
      (∃ logs fs2, createFileBody port cwd rawPath fs = (.ok logs, fs2) ∧
        createFile port cwd rawPath fs = (fs2, logs)) ∨
      (∃ e fs2, createFileBody port cwd rawPath fs = (.error e, fs2) ∧
        createFile port cwd rawPath fs =
          (fs2, [Log.error (str "createFile failed for \"" ++ rawPath ++ str "\"") (some e)]))) ∧
    (∀ (port : FsPort) (cwd rawPath : Str) (fs : FS),
      (∃ logs fs2, deleteFileBody port cwd rawPath fs = (.ok logs, fs2) ∧
        deleteFile port cwd rawPath fs = (fs2, logs)) ∨
      (∃ e fs2, deleteFileBody port cwd rawPath fs = (.error e, fs2) ∧
        deleteFile port cwd rawPath fs =
          (fs2, [Log.error (str "deleteFile failed for \"" ++ rawPath ++ str "\"") (some e)]))) ∧
    (∀ (port : FsPort) (cwd rawOldPath rawNewPath : Str) (fs : FS),
      (∃ logs fs2, renameFileBody port cwd rawOldPath rawNewPath fs = (.ok logs, fs2) ∧
        renameFile port cwd rawOldPath rawNewPath fs = (fs2, logs)) ∨
      (∃ e fs2, renameFileBody port cwd rawOldPath rawNewPath fs = (.error e, fs2) ∧
        renameFile port cwd rawOldPath rawNewPath fs =
          (fs2, [Log.error (str "renameFile failed (\"" ++ rawOldPath ++ str "\" → \"" ++
            rawNewPath ++ str "\")") (some e)]))) ∧
    (∀ (port : FsPort) (cwd rawPath content : Str) (fs : FS),
      (∃ logs fs2, addToFileBody port cwd rawPath content fs = (.ok logs, fs2) ∧
        addToFile port cwd rawPath content fs = (fs2, logs)) ∨
      (∃ e fs2, addToFileBody port cwd rawPath content fs = (.error e, fs2) ∧
        addToFile port cwd rawPath content fs =
          (fs2, [Log.error (str "addToFile failed for \"" ++ rawPath ++ str "\"") (some e)]))) ∧
    (∀ (port : FsPort) (cwd rawPath : Str) (fs : FS),
      (∃ logs fs2, readFileBody port cwd rawPath fs = (.ok logs, fs2) ∧
        readFile port cwd rawPath fs = (fs2, logs)) ∨
      (∃ e fs2, readFileBody port cwd rawPath fs = (.error e, fs2) ∧
        readFile port cwd rawPath fs =
          (fs2, [Log.error (str "readFile failed for \"" ++ rawPath ++ str "\"") (some e)]))) ∧
    (∀ (port : FsPort) (cwd rawSrc rawDest : Str) (fs : FS),
      (∃ logs fs2, copyFileBody port cwd rawSrc rawDest fs = (.ok logs, fs2) ∧
        copyFile port cwd rawSrc rawDest fs = (fs2, logs)) ∨
      (∃ e fs2, copyFileBody port cwd rawSrc rawDest fs = (.error e, fs2) ∧
        copyFile port cwd rawSrc rawDest fs =
          (fs2, [Log.error (str "copyFile failed (\"" ++ rawSrc ++ str "\" → \"" ++
            rawDest ++ str "\")") (some e)]))) ∧
    (∀ (port : FsPort) (cwd rawPath : Str) (fs : FS),
      (∃ logs fs2, listDirectoryBody port cwd rawPath fs = (.ok logs, fs2) ∧
        listDirectory port cwd rawPath fs = (fs2, logs)) ∨
      (∃ e fs2, listDirectoryBody port cwd rawPath fs = (.error e, fs2) ∧
        listDirectory port cwd rawPath fs =
          (fs2, [Log.error (str "listDirectory failed for \"" ++ rawPath ++ str "\"") (some e)]))) ∧
    (∀ (port : FsPort) (cwd rawPath : Str) (fs : FS),
      (∃ logs fs2, fileInfoBody port cwd rawPath fs = (.ok logs, fs2) ∧
        fileInfo port cwd rawPath fs = (fs2, logs)) ∨
      (∃ e fs2, fileInfoBody port cwd rawPath fs = (.error e, fs2) ∧
        fileInfo port cwd rawPath fs =
          (fs2, [Log.error (str "fileInfo failed for \"" ++ rawPath ++ str "\"") (some e)]))) ∧
    (∀ (port : FsPort) (cwd : Str) (statE : Except Err Nat) (readE : Except Err Str)
        (last : Str) (fs : FS),
      (handleChange port cwd statE readE ⟨false, last⟩ fs).state.processing = false) ∧
    (∀ (port : FsPort) (cwd : Str) (e : Err) (readE : Except Err Str) (last : Str) (fs : FS),
      handleChange port cwd (.error e) readE ⟨false, last⟩ fs =
        ⟨⟨false, last⟩, fs, [Log.error (str "Unexpected error while processing command") (some e)],
          none, [true]⟩) :=
  ⟨fun _ _ _ _ => catchCmd_cases _ _,
   fun _ _ _ _ => catchCmd_cases _ _,
   fun _ _ _ _ _ => catchCmd_cases _ _,
   fun _ _ _ _ _ => catchCmd_cases _ _,
   fun _ _ _ _ => catchCmd_cases _ _,
   fun _ _ _ _ _ => catchCmd_cases _ _,
   fun _ _ _ _ => catchCmd_cases _ _,
   fun _ _ _ _ => catchCmd_cases _ _,
   handleChange_processing_false,
   fun _ _ _ _ _ _ => rfl⟩

/-- C6: if both the old and the new path of a rename exist, `renameFile`
performs no file-system mutation at all — for every port the disk is
returned unchanged — and logs exactly one warn. -/
theorem rename_no_overwrite (port : FsPort) (cwd rawOldPath rawNewPath oldP newP : Str)
    (fs : FS)
    (h1 : resolveSafePath cwd rawOldPath = .ok oldP)
    (h2 : resolveSafePath cwd rawNewPath = .ok newP)
    (h3 : pathExists port oldP fs = true)
    (h4 : pathExists port newP fs = true) :
    renameFile port cwd rawOldPath rawNewPath fs =
      (fs, [Log.warn (str "Destination already exists: \"" ++ newP ++
        str "\". Rename aborted.")]) := by
  simp [renameFile, renameFileBody, h1, h2, h3, h4, catchCmd]

/-- Witness for C6 at concrete input: renaming `a` onto the existing `b`
under root `/w` leaves both files untouched and warns once. -/
theorem rename_no_overwrite_witness :
    resolveSafePath (str "/w") (str "a") = .ok (str "/w/a") ∧
    resolveSafePath (str "/w") (str "b") = .ok (str "/w/b") ∧
    pathExists ioPort (str "/w/a") [(str "/w/a", str "1"), (str "/w/b", str "2")] = true ∧
    pathExists ioPort (str "/w/b") [(str "/w/a", str "1"), (str "/w/b", str "2")] = true ∧
    renameFile ioPort (str "/w") (str "a") (str "b")
        [(str "/w/a", str "1"), (str "/w/b", str "2")] =
      ([(str "/w/a", str "1"), (str "/w/b", str "2")],
       [Log.warn (str "Destination already exists: \"" ++ str "/w/b" ++
         str "\". Rename aborted.")]) :=
  ⟨rfl, rfl, rfl, rfl,
   rename_no_overwrite ioPort (str "/w") (str "a") (str "b") (str "/w/a") (str "/w/b")
     [(str "/w/a", str "1"), (str "/w/b", str "2")] rfl rfl rfl rfl⟩

/-- C7: `createFile` is idempotent.  On a path absent from the disk the
first call creates exactly one file, empty, and succeeds; the second call
on the unchanged result performs no file-system action and emits a single
warn; the file still exists with empty content. -/
theorem createFile_idempotent (cwd rawPath p : Str) (fs : FS)
    (h1 : resolveSafePath cwd rawPath = .ok p)
    (h2 : lookupF fs p = none) :
    createFile ioPort cwd rawPath fs =
      (setF p [] fs, [Log.success (str "File created: \"" ++ p ++ str "\"")]) ∧
    lookupF (setF p [] fs) p = some [] ∧
    createFile ioPort cwd rawPath (setF p [] fs) =
      (setF p [] fs, [Log.warn (str "File already exists: \"" ++ p ++ str "\"")]) := by
  refine ⟨?_, lookupF_setF_self p [] fs, ?_⟩
  · simp [createFile, createFileBody, h1, pathExists, ioPort, h2, catchCmd]
  · simp [createFile, createFileBody, h1, pathExists, ioPort, lookupF_setF_self, catchCmd]

/-- Witness for C7 at concrete input: creating `/w/a.txt` twice on an
empty disk yields one empty file and one warn on the second call. -/
theorem createFile_idempotent_witness :
    resolveSafePath (str "/w") (str "a.txt") = .ok (str "/w/a.txt") ∧
    lookupF [] (str "/w/a.txt") = none ∧
    createFile ioPort (str "/w") (str "a.txt") [] =
      (setF (str "/w/a.txt") [] [],
       [Log.success (str "File created: \"" ++ str "/w/a.txt" ++ str "\"")]) ∧
    lookupF (setF (str "/w/a.txt") [] []) (str "/w/a.txt") = some [] ∧
    createFile ioPort (str "/w") (str "a.txt") (setF (str "/w/a.txt") [] []) =
      (setF (str "/w/a.txt") [] [],
       [Log.warn (str "File already exists: \"" ++ str "/w/a.txt" ++ str "\"")]) := by
  have h := createFile_idempotent (str "/w") (str "a.txt") (str "/w/a.txt") [] rfl rfl
  exact ⟨rfl, rfl, h.1, h.2.1, h.2.2⟩

/-- Witness for C4 at a concrete input: the command `create a file
/w/a.txt` written twice runs once; the duplicate is dropped. -/
theorem duplicate_event_suppression_witness :
    (str "create a file /w/a.txt" ≠ ([] : Str)) ∧ (str "create a file /w/a.txt" ≠ ([] : Str)) ∧
    (let r1 := handleChange ioPort (str "/w") (.ok (str "create a file /w/a.txt").length)
        (.ok (str "create a file /w/a.txt")) ⟨false, []⟩ []
     let r2 := handleChange ioPort (str "/w") (.ok (str "create a file /w/a.txt").length)
        (.ok (str "create a file /w/a.txt")) r1.state r1.fs
     r1.executed = some (str "create a file /w/a.txt") ∧
     r1.state = ⟨false, str "create a file /w/a.txt"⟩ ∧
     r2.executed = none ∧ r2.logs = [] ∧ r2.fs = r1.fs ∧
     r2.state = ⟨false, str "create a file /w/a.txt"⟩) :=
  ⟨by decide, by decide,
   duplicate_event_suppression ioPort (str "/w") (str "create a file /w/a.txt") [] []
     (by decide) (by decide)⟩

/-- C10: `pathExists` returns false whenever the underlying access check
fails for any reason, so each existence-gated operation — delete, rename,
read, copy, file info — treats a path that is on the disk but whose
access check fails as not found: a warn-level no-op with the disk
unchanged, never a report of the underlying access error. -/
theorem access_failure_treated_not_found :
    (∀ (port : FsPort) (p : Str) (fs : FS) (e : Err),
      port.access p fs = .error e → pathExists port p fs = false) ∧
    (∀ (port : FsPort) (cwd rawPath p : Str) (fs : FS) (e : Err) (c : Str),
      resolveSafePath cwd rawPath = .ok p → port.access p fs = .error e →
      lookupF fs p = some c →
      deleteFile port cwd rawPath fs =
        (fs, [Log.warn (str "File not found, cannot delete: \"" ++ p ++ str "\"")])) ∧
    (∀ (port : FsPort) (cwd rawOldPath rawNewPath oldP newP : Str) (fs : FS) (e : Err) (c : Str),
      resolveSafePath cwd rawOldPath = .ok oldP → resolveSafePath cwd rawNewPath = .ok newP →
      port.access oldP fs = .error e → lookupF fs oldP = some c →
      renameFile port cwd rawOldPath rawNewPath fs =
        (fs, [Log.warn (str "Source file not found: \"" ++ oldP ++ str "\"")])) ∧
    (∀ (port : FsPort) (cwd rawPath p : Str) (fs : FS) (e : Err) (c : Str),
      resolveSafePath cwd rawPath = .ok p → port.access p fs = .error e →
      lookupF fs p = some c →
      readFile port cwd rawPath fs =
        (fs, [Log.warn (str "File not found: \"" ++ p ++ str "\"")])) ∧
    (∀ (port : FsPort) (cwd rawSrc rawDest src dest : Str) (fs : FS) (e : Err) (c : Str),
      resolveSafePath cwd rawSrc = .ok src → resolveSafePath cwd rawDest = .ok dest →
      port.access src fs = .error e → lookupF fs src = some c →
      copyFile port cwd rawSrc rawDest fs =
        (fs, [Log.warn (str "Source file not found: \"" ++ src ++ str "\"")])) ∧
    (∀ (port : FsPort) (cwd rawPath p : Str) (fs : FS) (e : Err) (c : Str),
      resolveSafePath cwd rawPath = .ok p → port.access p fs = .error e →
      lookupF fs p = some c →
      fileInfo port cwd rawPath fs =
        (fs, [Log.warn (str "Path not found: \"" ++ p ++ str "\"")])) := by
  refine ⟨?_, ?_, ?_, ?_, ?_, ?_⟩
  · intro port p fs e hacc
    simp [pathExists, hacc]
  · intro port cwd rawPath p fs e c h1 hacc _
    simp [deleteFile, deleteFileBody, h1, pathExists, hacc, catchCmd]
  · intro port cwd rawOldPath rawNewPath oldP newP fs e c h1 h2 hacc _
    simp [renameFile, renameFileBody, h1, h2, pathExists, hacc, catchCmd]
  · intro port cwd rawPath p fs e c h1 hacc _
    simp [readFile, readFileBody, h1, pathExists, hacc, catchCmd]
  · intro port cwd rawSrc rawDest src dest fs e c h1 h2 hacc _
    simp [copyFile, copyFileBody, h1, h2, pathExists, hacc, catchCmd]
  · intro port cwd rawPath p fs e c h1 hacc _
    simp [fileInfo, fileInfoBody, h1, pathExists, hacc, catchCmd]

/-- Witness for C10 at concrete input: on a disk holding `/w/a` and
`/w/b` but with every access check denied, all five existence-gated
operations warn "not found" and leave the disk unchanged. -/
theorem access_failure_treated_not_found_witness :
    deniedPort.access (str "/w/a") [(str "/w/a", str "x"), (str "/w/b", str "y")] =
      .error (str "EACCES") ∧
    lookupF [(str "/w/a", str "x"), (str "/w/b", str "y")] (str "/w/a") = some (str "x") ∧
    pathExists deniedPort (str "/w/a") [(str "/w/a", str "x"), (str "/w/b", str "y")] = false ∧
    deleteFile deniedPort (str "/w") (str "a") [(str "/w/a", str "x"), (str "/w/b", str "y")] =
      ([(str "/w/a", str "x"), (str "/w/b", str "y")],
       [Log.warn (str "File not found, cannot delete: \"" ++ str "/w/a" ++ str "\"")]) ∧
    renameFile deniedPort (str "/w") (str "a") (str "b")
        [(str "/w/a", str "x"), (str "/w/b", str "y")] =
      ([(str "/w/a", str "x"), (str "/w/b", str "y")],
       [Log.warn (str "Source file not found: \"" ++ str "/w/a" ++ str "\"")]) ∧
    readFile deniedPort (str "/w") (str "a") [(str "/w/a", str "x"), (str "/w/b", str "y")] =
      ([(str "/w/a", str "x"), (str "/w/b", str "y")],
       [Log.warn (str "File not found: \"" ++ str "/w/a" ++ str "\"")]) ∧
    copyFile deniedPort (str "/w") (str "a") (str "b")
        [(str "/w/a", str "x"), (str "/w/b", str "y")] =
      ([(str "/w/a", str "x"), (str "/w/b", str "y")],
       [Log.warn (str "Source file not found: \"" ++ str "/w/a" ++ str "\"")]) ∧
    fileInfo deniedPort (str "/w") (str "a") [(str "/w/a", str "x"), (str "/w/b", str "y")] =
      ([(str "/w/a", str "x"), (str "/w/b", str "y")],
       [Log.warn (str "Path not found: \"" ++ str "/w/a" ++ str "\"")]) :=
  ⟨rfl, rfl,
   access_failure_treated_not_found.1 deniedPort (str "/w/a")
     [(str "/w/a", str "x"), (str "/w/b", str "y")] (str "EACCES") rfl,
   access_failure_treated_not_found.2.1 deniedPort (str "/w") (str "a") (str "/w/a")
     [(str "/w/a", str "x"), (str "/w/b", str "y")] (str "EACCES") (str "x") rfl rfl rfl,
   access_failure_treated_not_found.2.2.1 deniedPort (str "/w") (str "a") (str "b")
     (str "/w/a") (str "/w/b") [(str "/w/a", str "x"), (str "/w/b", str "y")]
     (str "EACCES") (str "x") rfl rfl rfl rfl,
   access_failure_treated_not_found.2.2.2.1 deniedPort (str "/w") (str "a") (str "/w/a")
     [(str "/w/a", str "x"), (str "/w/b", str "y")] (str "EACCES") (str "x") rfl rfl rfl,
   access_failure_treated_not_found.2.2.2.2.1 deniedPort (str "/w") (str "a") (str "b")
     (str "/w/a") (str "/w/b") [(str "/w/a", str "x"), (str "/w/b", str "y")]
     (str "EACCES") (str "x") rfl rfl rfl rfl,
   access_failure_treated_not_found.2.2.2.2.2 deniedPort (str "/w") (str "a") (str "/w/a")
     [(str "/w/a", str "x"), (str "/w/b", str "y")] (str "EACCES") (str "x") rfl rfl rfl⟩

/-- C2: for an add-to-file command, the content appended to the file is
exactly the text after the FIRST " this content: " separator in the
command remainder, byte for byte: the separator occurs at no earlier
index, the remainder splits as `path-part ++ separator ++ content`, and
the disk gains precisely `old-content ++ content` at the resolved path —
the payload is never trimmed (leading whitespace in it survives; the
whole-command normalization happens before the split, so the suffix taken
here is appended unaltered). -/
theorem append_content_verbatim (cwd : Str) (fs : FS) (raw r0 : Str) (i : Nat) (p : Str)
    (h : normalizeCmd raw = ADD_TO_FILE ++ r0)
    (hi : indexOfSub MARKER (jsTrim r0) = some i)
    (hp : resolveSafePath cwd (jsTrim ((jsTrim r0).take i)) = .ok p) :
    (∀ j, j < i → startsWithL MARKER ((jsTrim r0).drop j) = false) ∧
    jsTrim r0 = (jsTrim r0).take i ++ MARKER ++ (jsTrim r0).drop (i + MARKER.length) ∧
    parseAndExecute ioPort cwd fs raw =
      (setF p ((lookupF fs p).getD [] ++ (jsTrim r0).drop (i + MARKER.length)) fs,
       [Log.info (str "Command received: \"" ++ (ADD_TO_FILE ++ r0) ++ str "\""),
        Log.success (str "Content appended to: \"" ++ p ++ str "\"")]) := by
  refine ⟨(indexOfSub_first _ _ _ hi).2, indexOfSub_split _ _ _ hi, ?_⟩
  rw [parse_add_eq ioPort cwd fs raw r0 i h hi]
  simp [addToFile, addToFileBody, hp, ioPort, catchCmd]

/-- Witness for C2 at concrete input: `add to the file a.txt this
content:   hi` appends "  hi" — the two leading spaces of the payload are
preserved, untrimmed. -/
theorem append_content_verbatim_witness :
    normalizeCmd (str "add to the file a.txt this content:   hi") =
      ADD_TO_FILE ++ str " a.txt this content:   hi" ∧
    indexOfSub MARKER (jsTrim (str " a.txt this content:   hi")) = some 5 ∧
    resolveSafePath (str "/w") (jsTrim ((jsTrim (str " a.txt this content:   hi")).take 5)) =
      .ok (str "/w/a.txt") ∧
    (jsTrim (str " a.txt this content:   hi")).drop (5 + MARKER.length) = str "  hi" ∧
    ((∀ j, j < 5 →
        startsWithL MARKER ((jsTrim (str " a.txt this content:   hi")).drop j) = false) ∧
     jsTrim (str " a.txt this content:   hi") =
       (jsTrim (str " a.txt this content:   hi")).take 5 ++ MARKER ++
         (jsTrim (str " a.txt this content:   hi")).drop (5 + MARKER.length) ∧
     parseAndExecute ioPort (str "/w") [] (str "add to the file a.txt this content:   hi") =
       (setF (str "/w/a.txt")
          ((lookupF [] (str "/w/a.txt")).getD [] ++
            (jsTrim (str " a.txt this content:   hi")).drop (5 + MARKER.length)) [],
        [Log.info (str "Command received: \"" ++
           (ADD_TO_FILE ++ str " a.txt this content:   hi") ++ str "\""),
         Log.success (str "Content appended to: \"" ++ str "/w/a.txt" ++ str "\"")])) :=
  ⟨rfl, rfl, rfl, rfl,
   append_content_verbatim (str "/w") [] (str "add to the file a.txt this content:   hi")
     (str " a.txt this content:   hi") 5 (str "/w/a.txt") rfl rfl rfl⟩

/-- C9: the rename and copy parse rules split the command remainder at
the FIRST occurrence of " to ": the separator starts at no earlier index,
the remainder splits as `left ++ " to " ++ right`, and the executed
operation receives the trimmed left part as old/source path and the
trimmed right part (everything after the first occurrence, later
occurrences included) as new/destination path. -/
theorem split_at_first_to :
    (∀ (port : FsPort) (cwd : Str) (fs : FS) (raw r0 : Str) (i : Nat),
      normalizeCmd raw = RENAME_FILE ++ r0 →
      indexOfSub SEP_TO (jsTrim r0) = some i →
      ((∀ j, j < i → startsWithL SEP_TO ((jsTrim r0).drop j) = false) ∧
       jsTrim r0 = (jsTrim r0).take i ++ SEP_TO ++ (jsTrim r0).drop (i + 4) ∧
       parseAndExecute port cwd fs raw =
         ((renameFile port cwd (jsTrim ((jsTrim r0).take i))
             (jsTrim ((jsTrim r0).drop (i + 4))) fs).1,
          Log.info (str "Command received: \"" ++ (RENAME_FILE ++ r0) ++ str "\"") ::
            (renameFile port cwd (jsTrim ((jsTrim r0).take i))
              (jsTrim ((jsTrim r0).drop (i + 4))) fs).2))) ∧
    (∀ (port : FsPort) (cwd : Str) (fs : FS) (raw r0 : Str) (i : Nat),
      normalizeCmd raw = COPY_FILE ++ r0 →
      indexOfSub SEP_TO (jsTrim r0) = some i →
      ((∀ j, j < i → startsWithL SEP_TO ((jsTrim r0).drop j) = false) ∧
       jsTrim r0 = (jsTrim r0).take i ++ SEP_TO ++ (jsTrim r0).drop (i + 4) ∧
       parseAndExecute port cwd fs raw =
         ((copyFile port cwd (jsTrim ((jsTrim r0).take i))
             (jsTrim ((jsTrim r0).drop (i + 4))) fs).1,
          Log.info (str "Command received: \"" ++ (COPY_FILE ++ r0) ++ str "\"") ::
            (copyFile port cwd (jsTrim ((jsTrim r0).take i))
              (jsTrim ((jsTrim r0).drop (i + 4))) fs).2))) := by
  constructor
  · intro port cwd fs raw r0 i h hi
    exact ⟨(indexOfSub_first _ _ _ hi).2, indexOfSub_split _ _ _ hi,
      parse_rename_eq port cwd fs raw r0 i h hi⟩
  · intro port cwd fs raw r0 i h hi
    exact ⟨(indexOfSub_first _ _ _ hi).2, indexOfSub_split _ _ _ hi,
      parse_copy_eq port cwd fs raw r0 i h hi⟩

/-- Witness for C9 at concrete input: in `rename the file a to b to c`
(and `copy the file x to y to z`) the left operand is `a` (resp. `x`) and
the right operand is everything after the FIRST " to ": `b to c` (resp.
`y to z`). -/
theorem split_at_first_to_witness :
    normalizeCmd (str "rename the file a to b to c") = RENAME_FILE ++ str " a to b to c" ∧
    indexOfSub SEP_TO (jsTrim (str " a to b to c")) = some 1 ∧
    jsTrim ((jsTrim (str " a to b to c")).take 1) = str "a" ∧
    jsTrim ((jsTrim (str " a to b to c")).drop (1 + 4)) = str "b to c" ∧
    normalizeCmd (str "copy the file x to y to z") = COPY_FILE ++ str " x to y to z" ∧
    indexOfSub SEP_TO (jsTrim (str " x to y to z")) = some 1 ∧
    ((∀ j, j < 1 → startsWithL SEP_TO ((jsTrim (str " a to b to c")).drop j) = false) ∧
     jsTrim (str " a to b to c") =
       (jsTrim (str " a to b to c")).take 1 ++ SEP_TO ++
         (jsTrim (str " a to b to c")).drop (1 + 4) ∧
     parseAndExecute ioPort (str "/w") [] (str "rename the file a to b to c") =
       ((renameFile ioPort (str "/w") (jsTrim ((jsTrim (str " a to b to c")).take 1))
           (jsTrim ((jsTrim (str " a to b to c")).drop (1 + 4))) []).1,
        Log.info (str "Command received: \"" ++ (RENAME_FILE ++ str " a to b to c") ++
          str "\"") ::
          (renameFile ioPort (str "/w") (jsTrim ((jsTrim (str " a to b to c")).take 1))
            (jsTrim ((jsTrim (str " a to b to c")).drop (1 + 4))) []).2)) ∧
    ((∀ j, j < 1 → startsWithL SEP_TO ((jsTrim (str " x to y to z")).drop j) = false) ∧
     jsTrim (str " x to y to z") =
       (jsTrim (str " x to y to z")).take 1 ++ SEP_TO ++
         (jsTrim (str " x to y to z")).drop (1 + 4) ∧
     parseAndExecute ioPort (str "/w") [] (str "copy the file x to y to z") =
       ((copyFile ioPort (str "/w") (jsTrim ((jsTrim (str " x to y to z")).take 1))
           (jsTrim ((jsTrim (str " x to y to z")).drop (1 + 4))) []).1,
        Log.info (str "Command received: \"" ++ (COPY_FILE ++ str " x to y to z") ++
          str "\"") ::
          (copyFile ioPort (str "/w") (jsTrim ((jsTrim (str " x to y to z")).take 1))
            (jsTrim ((jsTrim (str " x to y to z")).drop (1 + 4))) []).2)) :=
  ⟨rfl, rfl, rfl, rfl, rfl, rfl,
   split_at_first_to.1 ioPort (str "/w") [] (str "rename the file a to b to c")
     (str " a to b to c") 1 rfl rfl,
   split_at_first_to.2 ioPort (str "/w") [] (str "copy the file x to y to z")
     (str " x to y to z") 1 rfl rfl⟩

end FileCommander
